import Mathlib

/-!
Shallow embedding of the tasker-proxy admission-control subsystem.

The repository has two parallel implementations of the same Cloud Function:
`src/index.js` (JavaScript) and `src/src/index.ts` (TypeScript).  Both expose
an HTTP handler `apiProxy` that

  1. resolves a client identifier from `req.ip` and the `X-Forwarded-For`
     header (identity resolution),
  2. calls `checkAndRecordUsage` (the admission controller: debug bypass,
     whitelist check, then a Firestore transaction that reads the per-client
     and global daily counters, denies if either is at its limit, and
     otherwise increments both), and
  3. dispatches the admitted request to one of three providers by substring
     match on the request path.

The Firestore store is modelled as two partial maps (collections
`ip-usage` and `global-usage`) from document id to the document's `count`
field; a missing document is `none` and is read as count 0, exactly as the
source's `doc.exists ? doc.data().count : 0`.  A Firestore transaction is
atomic: it either commits all of its writes or none, so an infrastructure
failure of the transaction (the `catch` branch of the source) leaves the
store unchanged and yields `false`.  The environment record collects the
configuration the source reads: the `BYPASS_RATE_LIMITING` flag, the
whitelist from `whitelist.json`, the current UTC date string `today`, and
whether the transaction fails for infrastructure reasons on this call.
-/

/-- Per-client daily limit: `IP_LIMIT` in both sources. -/
def IP_LIMIT : Nat := 100

/-- Global daily limit: `GLOBAL_LIMIT` in both sources. -/
def GLOBAL_LIMIT : Nat := 1000

/-- The Firestore state visible to this subsystem: collection `ip-usage`
(document id `"${ipAddress}_${today}"`, field `count`) and collection
`global-usage` (document id `today`, field `count`).  `none` models a
document that does not exist. -/
structure Store where
  ipUsage : String → Option Nat
  globalUsage : String → Option Nat

/-- A store with no documents. -/
def emptyStore : Store := ⟨fun _ => none, fun _ => none⟩

/-- Configuration and per-call circumstances read by `checkAndRecordUsage`:
`process.env.BYPASS_RATE_LIMITING === "true"`, `whitelist.json`'s `ips`
array, the current UTC date (`new Date().toISOString().split("T")[0]`), and
whether the Firestore transaction fails for an infrastructure reason. -/
structure Env where
  bypassRateLimiting : Bool
  whitelistedIps : List String
  today : String
  txnFails : Bool

/-- Document id of the per-client counter: the template literal
`` `${ipAddress}_${today}` `` of both sources. -/
def ipDocId (ipAddress today : String) : String := ipAddress ++ "_" ++ today

/-- The per-client count the transaction reads:
`ipDoc.exists ? ipDoc.data().count : 0`. -/
def ipCountIn (s : Store) (ipAddress today : String) : Nat :=
  (s.ipUsage (ipDocId ipAddress today)).getD 0

/-- The global count the transaction reads:
`globalDoc.exists ? globalDoc.data().count : 0`. -/
def globalCountIn (s : Store) (today : String) : Nat :=
  (s.globalUsage today).getD 0

/-- The two `transaction.set(..., { merge: true })` writes of the allow
branch: both counters are written back incremented by one, creating the
documents if absent; no other document is touched. -/
def recordIncrement (env : Env) (ipAddress : String) (s : Store) : Store :=
  { ipUsage := fun k =>
      if k = ipDocId ipAddress env.today
      then some (ipCountIn s ipAddress env.today + 1)
      else s.ipUsage k
    globalUsage := fun k =>
      if k = env.today
      then some (globalCountIn s env.today + 1)
      else s.globalUsage k }

/-- The body of `firestore.runTransaction` in both sources: read both
counters (a missing document counts 0), deny if the per-client count is at
or above `IP_LIMIT`, deny if the global count is at or above
`GLOBAL_LIMIT`, otherwise write both counters incremented and allow. -/
def quotaTransaction (env : Env) (ipAddress : String) (s : Store) : Bool × Store :=
  if ipCountIn s ipAddress env.today ≥ IP_LIMIT then (false, s)
  else if globalCountIn s env.today ≥ GLOBAL_LIMIT then (false, s)
  else (true, recordIncrement env ipAddress s)

/-- `checkAndRecordUsage` of `src/src/index.ts` (identifier already a
string): debug bypass first, then the whitelist check
(`WHITELISTED_IPS.includes(ipAddress)`), then the transaction inside
`try`/`catch`; a failing transaction commits nothing and the `catch`
returns `false`. -/
def checkAndRecordUsage (env : Env) (ipAddress : String) (s : Store) : Bool × Store :=
  if env.bypassRateLimiting then (true, s)
  else if env.whitelistedIps.contains ipAddress then (true, s)
  else if env.txnFails then (false, s)
  else quotaTransaction env ipAddress s

section CharacterizationLemmas

lemma check_bypass (env : Env) (ipAddress : String) (s : Store)
    (hb : env.bypassRateLimiting = true) :
    checkAndRecordUsage env ipAddress s = (true, s) := by
  simp [checkAndRecordUsage, hb]

lemma check_quota_path (env : Env) (ipAddress : String) (s : Store)
    (hb : env.bypassRateLimiting = false)
    (hw : env.whitelistedIps.contains ipAddress = false)
    (hf : env.txnFails = false) :
    checkAndRecordUsage env ipAddress s = quotaTransaction env ipAddress s := by
  unfold checkAndRecordUsage
  rw [hb, hw, hf]
  simp

lemma qt_deny_ip (env : Env) (ipAddress : String) (s : Store)
    (h : IP_LIMIT ≤ ipCountIn s ipAddress env.today) :
    quotaTransaction env ipAddress s = (false, s) := by
  simp [quotaTransaction, h]

lemma qt_allow (env : Env) (ipAddress : String) (s : Store)
    (h1 : ipCountIn s ipAddress env.today < IP_LIMIT)
    (h2 : globalCountIn s env.today < GLOBAL_LIMIT) :
    quotaTransaction env ipAddress s = (true, recordIncrement env ipAddress s) := by
  simp [quotaTransaction, Nat.not_le.mpr h1, Nat.not_le.mpr h2]

lemma recordIncrement_ipCount (env : Env) (ipAddress : String) (s : Store) :
    ipCountIn (recordIncrement env ipAddress s) ipAddress env.today =
      ipCountIn s ipAddress env.today + 1 := by
  simp [ipCountIn, recordIncrement]

lemma recordIncrement_globalCount (env : Env) (ipAddress : String) (s : Store) :
    globalCountIn (recordIncrement env ipAddress s) env.today =
      globalCountIn s env.today + 1 := by
  simp [globalCountIn, recordIncrement]

lemma check_cases (env : Env) (ipAddress : String) (s : Store) :
    checkAndRecordUsage env ipAddress s = (true, s) ∨
    checkAndRecordUsage env ipAddress s = (false, s) ∨
    checkAndRecordUsage env ipAddress s = (true, recordIncrement env ipAddress s) := by
  unfold checkAndRecordUsage quotaTransaction
  split
  · exact Or.inl rfl
  · split
    · exact Or.inl rfl
    · split
      · exact Or.inr (Or.inl rfl)
      · split
        · exact Or.inr (Or.inl rfl)
        · split
          · exact Or.inr (Or.inl rfl)
          · exact Or.inr (Or.inr rfl)

lemma check_snd_of_false (env : Env) (ipAddress : String) (s : Store)
    (h : (checkAndRecordUsage env ipAddress s).1 = false) :
    (checkAndRecordUsage env ipAddress s).2 = s := by
  rcases check_cases env ipAddress s with hc | hc | hc
  · rw [hc] at h; simp at h
  · rw [hc]
  · rw [hc] at h; simp at h

end CharacterizationLemmas

/-! ### The JavaScript variant of the admission controller

`src/index.js` passes the resolved identifier to `checkAndRecordUsage`
without the TypeScript `|| ""` coercion, so the argument can be
JavaScript's `undefined` (modelled as `none`).  Inside,
`WHITELISTED_IPS.includes(undefined)` is `false` for any list of strings,
while the template literal `` `${ipAddress}_${today}` `` renders
`undefined` as the literal text `"undefined"`. -/

/-- How the template literal renders the possibly-undefined identifier. -/
def jsTemplateIp : Option String → String
  | some a => a
  | none => "undefined"

/-- `WHITELISTED_IPS.includes(ipAddress)` for a possibly-undefined
argument: `undefined` is never equal to a string. -/
def jsWhitelistHit (l : List String) : Option String → Bool
  | some a => l.contains a
  | none => false

/-- The transaction body of `src/index.js` with a possibly-undefined
identifier: the document id is built by string interpolation. -/
def jsQuotaTransaction (env : Env) (ipAddress : Option String) (s : Store) : Bool × Store :=
  if ipCountIn s (jsTemplateIp ipAddress) env.today ≥ IP_LIMIT then (false, s)
  else if globalCountIn s env.today ≥ GLOBAL_LIMIT then (false, s)
  else (true, recordIncrement env (jsTemplateIp ipAddress) s)

/-- `checkAndRecordUsage` of `src/index.js`: identical logic, but the
identifier may be `undefined`. -/
def jsCheckAndRecordUsage (env : Env) (ipAddress : Option String) (s : Store) : Bool × Store :=
  if env.bypassRateLimiting then (true, s)
  else if jsWhitelistHit env.whitelistedIps ipAddress then (true, s)
  else if env.txnFails then (false, s)
  else jsQuotaTransaction env ipAddress s

/-! ### Identity resolution (`apiProxy`, both sources)

`let ipAddress = req.ip; const forwardedFor = req.get("X-Forwarded-For");
if (forwardedFor) { ipAddress = forwardedFor.split(",")[0].trim(); }`.
`req.ip` has type `string | undefined` and the header may be absent, so
both are modelled as `Option String`; a present-but-empty header is falsy
in JavaScript and leaves `req.ip` in place. -/

/-- Leading and trailing whitespace removed, as JavaScript's
`String.prototype.trim`. -/
def trimChars (l : List Char) : List Char :=
  ((l.dropWhile Char.isWhitespace).reverse.dropWhile Char.isWhitespace).reverse

/-- `forwardedFor.split(",")[0].trim()`: the first comma-separated entry
(the characters before the first `','`; JavaScript's `split` always
returns at least one element) with surrounding whitespace removed. -/
def firstForwardedEntry (forwardedFor : String) : String :=
  String.mk (trimChars (forwardedFor.data.takeWhile (fun c => c ≠ ',')))

/-- The identifier `src/index.js` hands to `checkAndRecordUsage`:
possibly `undefined` when `req.ip` is absent and no usable header exists. -/
def jsResolveIp (reqIp forwardedFor : Option String) : Option String :=
  match forwardedFor with
  | some f => if f = "" then reqIp else some (firstForwardedEntry f)
  | none => reqIp

/-- The identifier `src/src/index.ts` hands to `checkAndRecordUsage`: the
same resolution followed by `ipAddress || ""` (for strings only `""` is
falsy, so this is exactly the `""`-default on `undefined`). -/
def tsResolveIp (reqIp forwardedFor : Option String) : String :=
  (jsResolveIp reqIp forwardedFor).getD ""

/-- The full admission pipeline of `src/index.js`: resolution followed by
the JavaScript `checkAndRecordUsage`. -/
def jsAdmitRequest (env : Env) (reqIp forwardedFor : Option String) (s : Store) :
    Bool × Store :=
  jsCheckAndRecordUsage env (jsResolveIp reqIp forwardedFor) s

/-- The full admission pipeline of `src/src/index.ts`: resolution (with the
`|| ""` coercion) followed by `checkAndRecordUsage`. -/
def tsAdmitRequest (env : Env) (reqIp forwardedFor : Option String) (s : Store) :
    Bool × Store :=
  checkAndRecordUsage env (tsResolveIp reqIp forwardedFor) s

/-! ### Provider dispatch (`apiProxy`, both sources) -/

/-- Does the list start with the given pattern? -/
def listStartsWith : List Char → List Char → Bool
  | _, [] => true
  | [], _ :: _ => false
  | c :: cs, d :: ds => c = d && listStartsWith cs ds

/-- Does the pattern occur anywhere in the list? -/
def listOccurs (pattern : List Char) : List Char → Bool
  | [] => pattern.isEmpty
  | c :: cs => listStartsWith (c :: cs) pattern || listOccurs pattern cs

/-- JavaScript's `String.prototype.includes`: `path.includes(sub)` is
`true` iff `sub` occurs somewhere in `path`. -/
def jsStringIncludes (path searchString : String) : Bool :=
  listOccurs searchString.data path.data

/-- What the router does with an admitted request. -/
inductive RouterAction where
  | callTTS : RouterAction
  | callOpenAI : RouterAction
  | callGemini : RouterAction
  | respond : Nat → String → RouterAction
deriving DecidableEq

/-- The `if`/`else if` chain of `apiProxy` after admission:
`path.includes("/tts")`, then `path.includes("/openai")`, then
`path.includes("/gemini")`, else status 404 with
`{ error: "Endpoint not found." }`. -/
def routeRequest (path : String) : RouterAction :=
  if jsStringIncludes path "/tts" then RouterAction.callTTS
  else if jsStringIncludes path "/openai" then RouterAction.callOpenAI
  else if jsStringIncludes path "/gemini" then RouterAction.callGemini
  else RouterAction.respond 404 "Endpoint not found."

/-! ### Iterated admission, for the counting and invariant claims -/

/-- The store after one admission attempt (the decision is discarded). -/
def admitStep (env : Env) (ipAddress : String) (s : Store) : Store :=
  (checkAndRecordUsage env ipAddress s).2

/-- The store after `n` admission attempts for a fixed client, starting
from the empty store. -/
def iterAdmit (env : Env) (ipAddress : String) : Nat → Store
  | 0 => emptyStore
  | n + 1 => admitStep env ipAddress (iterAdmit env ipAddress n)

/-- The store after an arbitrary sequence of admission attempts, each with
its own environment (day, flags) and client. -/
def runOps : List (Env × String) → Store → Store
  | [], s => s
  | (env, ipAddress) :: rest, s => runOps rest (checkAndRecordUsage env ipAddress s).2

/-- The committed-state invariant: every per-client document holds a count
at most `IP_LIMIT` and every global document holds a count at most
`GLOBAL_LIMIT`. -/
def StoreInv (s : Store) : Prop :=
  (∀ k n, s.ipUsage k = some n → n ≤ IP_LIMIT) ∧
  (∀ k n, s.globalUsage k = some n → n ≤ GLOBAL_LIMIT)

example : (checkAndRecordUsage ⟨false, [], "2025-06-01", false⟩ "1.2.3.4" emptyStore).1
    = true := by decide

example : (checkAndRecordUsage ⟨false, [], "2025-06-01", false⟩ "1.2.3.4" emptyStore).2.ipUsage
    "1.2.3.4_2025-06-01" = some 1 := by decide

example : jsResolveIp (some "9.9.9.9") (some " 1.2.3.4 , 5.6.7.8") = some "1.2.3.4" := by decide

example : tsResolveIp none none = "" := by decide

example : jsResolveIp none none = none := by decide

example : routeRequest "/v1/tts/openai" = RouterAction.callTTS := by decide

example : routeRequest "/nope" = RouterAction.respond 404 "Endpoint not found." := by decide

example : ipCountIn (iterAdmit ⟨false, [], "2025-06-01", false⟩ "1.2.3.4" 3)
    "1.2.3.4" "2025-06-01" = 3 := by decide

/-! ### Concrete fixtures used by the witnesses -/

/-- Bypass off, empty whitelist, a fixed day, no transaction failure. -/
def plainEnv : Env := ⟨false, [], "2025-06-01", false⟩

/-- As `plainEnv` but with one whitelisted address. -/
def wlEnv : Env := ⟨false, ["10.0.0.1"], "2025-06-01", false⟩

/-- As `plainEnv` but the transaction fails on this call. -/
def failEnv : Env := ⟨false, [], "2025-06-01", true⟩

/-- As `plainEnv` but with the empty string in the whitelist. -/
def emptyWlEnv : Env := ⟨false, [""], "2025-06-01", false⟩

/-- A store whose global counter for the fixed day is exactly at the
global limit; no per-client documents exist. -/
def atGlobalLimitStore : Store :=
  ⟨fun _ => none, fun k => if k = "2025-06-01" then some 1000 else none⟩

/-- A store whose per-client counter for the empty identifier on the fixed
day is exactly at the per-client limit. -/
def atEmptyIpLimitStore : Store :=
  ⟨fun k => if k = "_2025-06-01" then some 100 else none, fun _ => none⟩

/-! ### Further helper lemmas -/

lemma qt_deny_global (env : Env) (ipAddress : String) (s : Store)
    (h1 : ipCountIn s ipAddress env.today < IP_LIMIT)
    (h2 : GLOBAL_LIMIT ≤ globalCountIn s env.today) :
    quotaTransaction env ipAddress s = (false, s) := by
  simp [quotaTransaction, Nat.not_le.mpr h1, h2]

lemma check_txn_fail (env : Env) (ipAddress : String) (s : Store)
    (hb : env.bypassRateLimiting = false)
    (hw : env.whitelistedIps.contains ipAddress = false)
    (hf : env.txnFails = true) :
    checkAndRecordUsage env ipAddress s = (false, s) := by
  unfold checkAndRecordUsage
  rw [hb, hw, hf]
  simp

lemma StoreInv_empty : StoreInv emptyStore := by
  constructor <;> intro k n hk <;> simp [emptyStore] at hk

lemma StoreInv_recordIncrement (env : Env) (ipAddress : String) (s : Store)
    (hip : ipCountIn s ipAddress env.today < IP_LIMIT)
    (hg : globalCountIn s env.today < GLOBAL_LIMIT)
    (h : StoreInv s) :
    StoreInv (recordIncrement env ipAddress s) := by
  obtain ⟨h1, h2⟩ := h
  constructor
  · intro k n hk
    by_cases hkey : k = ipDocId ipAddress env.today
    · simp [recordIncrement, hkey] at hk
      omega
    · simp [recordIncrement, hkey] at hk
      exact h1 k n hk
  · intro k n hk
    by_cases hkey : k = env.today
    · simp [recordIncrement, hkey] at hk
      omega
    · simp [recordIncrement, hkey] at hk
      exact h2 k n hk

lemma StoreInv_step (env : Env) (ipAddress : String) (s : Store)
    (h : StoreInv s) :
    StoreInv (checkAndRecordUsage env ipAddress s).2 := by
  unfold checkAndRecordUsage
  split
  · exact h
  · split
    · exact h
    · split
      · exact h
      · unfold quotaTransaction
        split
        · exact h
        · split
          · exact h
          · next h1 h2 =>
              exact StoreInv_recordIncrement env ipAddress s
                (Nat.lt_of_not_le h1) (Nat.lt_of_not_le h2) h

lemma StoreInv_runOps (ops : List (Env × String)) (s : Store) (hs : StoreInv s) :
    StoreInv (runOps ops s) := by
  induction ops generalizing s with
  | nil => exact hs
  | cons op rest ih =>
      obtain ⟨env, ipAddress⟩ := op
      exact ih (checkAndRecordUsage env ipAddress s).2 (StoreInv_step env ipAddress s hs)

lemma iterAdmit_count (env : Env) (ipAddress : String)
    (hb : env.bypassRateLimiting = false)
    (hw : env.whitelistedIps.contains ipAddress = false)
    (hf : env.txnFails = false) :
    ∀ n, n ≤ IP_LIMIT →
      ipCountIn (iterAdmit env ipAddress n) ipAddress env.today = n ∧
      globalCountIn (iterAdmit env ipAddress n) env.today = n := by
  intro n
  induction n with
  | zero => intro _; exact ⟨rfl, rfl⟩
  | succ m ih =>
      intro hm
      obtain ⟨h1, h2⟩ := ih (Nat.le_of_succ_le hm)
      have hmlt : m < IP_LIMIT := Nat.lt_of_succ_le hm
      have hiplt : ipCountIn (iterAdmit env ipAddress m) ipAddress env.today < IP_LIMIT := by
        rw [h1]; exact hmlt
      have hglt : globalCountIn (iterAdmit env ipAddress m) env.today < GLOBAL_LIMIT := by
        rw [h2]
        exact Nat.lt_of_lt_of_le hmlt (by decide)
      show ipCountIn (admitStep env ipAddress (iterAdmit env ipAddress m)) ipAddress env.today
          = m + 1 ∧
        globalCountIn (admitStep env ipAddress (iterAdmit env ipAddress m)) env.today = m + 1
      rw [admitStep, check_quota_path env ipAddress _ hb hw hf,
        qt_allow env ipAddress _ hiplt hglt]
      constructor
      · show ipCountIn (recordIncrement env ipAddress (iterAdmit env ipAddress m))
            ipAddress env.today = m + 1
        rw [recordIncrement_ipCount, h1]
      · show globalCountIn (recordIncrement env ipAddress (iterAdmit env ipAddress m))
            env.today = m + 1
        rw [recordIncrement_globalCount, h2]

/-! ### The claims -/

/-- C1: for every period and every sequence of `checkAndRecordUsage`
operations that successfully commit, starting from an empty store, every
committed store state keeps every per-client count at or below the
per-client limit (100) and every global count at or below the global limit
(1000). -/
theorem committed_counts_never_exceed_limits (ops : List (Env × String)) :
    StoreInv (runOps ops emptyStore) :=
  StoreInv_runOps ops emptyStore StoreInv_empty

/-- C2: for a non-allow-listed client with the bypass flag off, after
`N < 100` successful admits in one period the stored per-client counter
reads `N` (each of those `N` calls returned `true`); once 100 admits have
happened, a further call in the same period returns `false`, changes
nothing, and the counter remains at 100. -/
theorem per_client_counting (env : Env) (ipAddress : String)
    (hb : env.bypassRateLimiting = false)
    (hw : env.whitelistedIps.contains ipAddress = false)
    (hf : env.txnFails = false)
    (N : Nat) (hN : N < 100) :
    ipCountIn (iterAdmit env ipAddress N) ipAddress env.today = N ∧
    (∀ k, k < N → (checkAndRecordUsage env ipAddress (iterAdmit env ipAddress k)).1 = true) ∧
    (checkAndRecordUsage env ipAddress (iterAdmit env ipAddress 100)).1 = false ∧
    (checkAndRecordUsage env ipAddress (iterAdmit env ipAddress 100)).2
      = iterAdmit env ipAddress 100 ∧
    ipCountIn (iterAdmit env ipAddress 100) ipAddress env.today = 100 := by
  have hcount := iterAdmit_count env ipAddress hb hw hf
  have h100 := hcount 100 (by decide)
  have hfull : checkAndRecordUsage env ipAddress (iterAdmit env ipAddress 100)
      = (false, iterAdmit env ipAddress 100) := by
    rw [check_quota_path env ipAddress _ hb hw hf]
    exact qt_deny_ip env ipAddress _ (by rw [h100.1]; decide)
  refine ⟨(hcount N (Nat.le_of_lt hN)).1, ?_, ?_, ?_, h100.1⟩
  · intro k hk
    have hks := hcount k (Nat.le_of_lt (Nat.lt_trans hk hN))
    rw [check_quota_path env ipAddress _ hb hw hf,
      qt_allow env ipAddress _ (by rw [hks.1]; exact Nat.lt_trans hk hN)
        (by rw [hks.2]; exact Nat.lt_of_lt_of_le (Nat.lt_trans hk hN) (by decide))]
  · rw [hfull]
  · rw [hfull]

/-- C2 witness: a concrete run of three admits for a fresh client on a
fixed day leaves the per-client counter at 3. -/
theorem per_client_counting_witness :
    ipCountIn (iterAdmit plainEnv "1.2.3.4" 3) "1.2.3.4" plainEnv.today = 3 :=
  (per_client_counting plainEnv "1.2.3.4" rfl rfl rfl 3 (by decide)).1

/-- C3: for a non-allow-listed client with the bypass flag off, once the
global counter for the period has reached 1000, `checkAndRecordUsage`
returns `false` for any client — whatever its per-client count, and
whether or not the transaction also fails. -/
theorem global_limit_blocks_all (env : Env) (ipAddress : String) (s : Store)
    (hb : env.bypassRateLimiting = false)
    (hw : env.whitelistedIps.contains ipAddress = false)
    (hg : 1000 ≤ globalCountIn s env.today) :
    (checkAndRecordUsage env ipAddress s).1 = false := by
  cases hf : env.txnFails
  · rw [check_quota_path env ipAddress s hb hw hf]
    by_cases hip : IP_LIMIT ≤ ipCountIn s ipAddress env.today
    · rw [qt_deny_ip env ipAddress s hip]
    · rw [qt_deny_global env ipAddress s (Nat.lt_of_not_le hip) hg]
  · rw [check_txn_fail env ipAddress s hb hw hf]

/-- C3 witness: with the global counter of the day at 1000, a client with
zero prior per-client usage is denied. -/
theorem global_limit_blocks_all_witness :
    (checkAndRecordUsage plainEnv "42.42.42.42" atGlobalLimitStore).1 = false :=
  global_limit_blocks_all plainEnv "42.42.42.42" atGlobalLimitStore rfl rfl (by decide)

/-- C4: for a whitelisted client, `checkAndRecordUsage` returns `true` and
leaves the store untouched, whatever the prior counter state (the result
does not depend on the store at all, so no read can influence it). -/
theorem allowlisted_always_admitted (env : Env) (ipAddress : String) (s : Store)
    (hw : env.whitelistedIps.contains ipAddress = true) :
    checkAndRecordUsage env ipAddress s = (true, s) := by
  unfold checkAndRecordUsage
  rw [hw]
  cases hb : env.bypassRateLimiting <;> simp

/-- C4 witness: a whitelisted address is admitted with no store change
even when the global counter is already at its limit. -/
theorem allowlisted_always_admitted_witness :
    checkAndRecordUsage wlEnv "10.0.0.1" atGlobalLimitStore = (true, atGlobalLimitStore) :=
  allowlisted_always_admitted wlEnv "10.0.0.1" atGlobalLimitStore (by decide)

/-- C5: a quota-path call (bypass off, client not whitelisted) either
returns `false` and leaves the store exactly as it was, or returns `true`
and writes both counters incremented by exactly one while touching no
other document — never a partial admission. -/
theorem quota_path_all_or_nothing (env : Env) (ipAddress : String) (s : Store)
    (hb : env.bypassRateLimiting = false)
    (hw : env.whitelistedIps.contains ipAddress = false) :
    ((checkAndRecordUsage env ipAddress s).1 = false →
      (checkAndRecordUsage env ipAddress s).2 = s) ∧
    ((checkAndRecordUsage env ipAddress s).1 = true →
      (checkAndRecordUsage env ipAddress s).2.ipUsage (ipDocId ipAddress env.today)
        = some (ipCountIn s ipAddress env.today + 1) ∧
      (checkAndRecordUsage env ipAddress s).2.globalUsage env.today
        = some (globalCountIn s env.today + 1) ∧
      (∀ k, k ≠ ipDocId ipAddress env.today →
        (checkAndRecordUsage env ipAddress s).2.ipUsage k = s.ipUsage k) ∧
      (∀ k, k ≠ env.today →
        (checkAndRecordUsage env ipAddress s).2.globalUsage k = s.globalUsage k)) := by
  constructor
  · exact check_snd_of_false env ipAddress s
  · intro ht
    cases hf : env.txnFails
    · rw [check_quota_path env ipAddress s hb hw hf] at ht ⊢
      by_cases hip : IP_LIMIT ≤ ipCountIn s ipAddress env.today
      · rw [qt_deny_ip env ipAddress s hip] at ht
        simp at ht
      · by_cases hgl : GLOBAL_LIMIT ≤ globalCountIn s env.today
        · rw [qt_deny_global env ipAddress s (Nat.lt_of_not_le hip) hgl] at ht
          simp at ht
        · rw [qt_allow env ipAddress s (Nat.lt_of_not_le hip) (Nat.lt_of_not_le hgl)]
          refine ⟨by simp [recordIncrement], by simp [recordIncrement], ?_, ?_⟩
          · intro k hk
            simp [recordIncrement, hk]
          · intro k hk
            simp [recordIncrement, hk]
    · rw [check_txn_fail env ipAddress s hb hw hf] at ht
      simp at ht

/-- C5 witness: an admitted call on the empty store writes the per-client
counter to one. -/
theorem quota_path_all_or_nothing_witness :
    (checkAndRecordUsage plainEnv "1.2.3.4" emptyStore).2.ipUsage
      (ipDocId "1.2.3.4" plainEnv.today)
      = some (ipCountIn emptyStore "1.2.3.4" plainEnv.today + 1) :=
  ((quota_path_all_or_nothing plainEnv "1.2.3.4" emptyStore rfl rfl).2 (by decide)).1

/-- C6: when the store transaction fails for an infrastructure reason on a
quota-path call, `checkAndRecordUsage` returns `false` (the `catch`
converts the fault to a boolean decision rather than re-raising) and the
store is unchanged — the system fails closed. -/
theorem txn_failure_fails_closed (env : Env) (ipAddress : String) (s : Store)
    (hb : env.bypassRateLimiting = false)
    (hw : env.whitelistedIps.contains ipAddress = false)
    (hf : env.txnFails = true) :
    checkAndRecordUsage env ipAddress s = (false, s) :=
  check_txn_fail env ipAddress s hb hw hf

/-- C6 witness: a concrete failing transaction denies and mutates
nothing. -/
theorem txn_failure_fails_closed_witness :
    checkAndRecordUsage failEnv "1.2.3.4" emptyStore = (false, emptyStore) :=
  txn_failure_fails_closed failEnv "1.2.3.4" emptyStore rfl rfl rfl

/-- C7 counterexample: the code gives the empty identifier no special
treatment, so an allow-list containing the empty string makes the empty
identifier allow-listed: the call returns `true` and increments nothing
even though the empty identifier's counter already sits at the per-client
limit — refuting "never allow-listed, always subject to quota" for every
allow-list configuration. -/
theorem empty_identifier_can_be_allowlisted :
    (checkAndRecordUsage emptyWlEnv "" atEmptyIpLimitStore).1 = true ∧
    (checkAndRecordUsage emptyWlEnv "" atEmptyIpLimitStore).2 = atEmptyIpLimitStore ∧
    IP_LIMIT ≤ ipCountIn atEmptyIpLimitStore "" emptyWlEnv.today :=
  ⟨rfl, rfl, by decide⟩

/-- C7 amended: for every allow-list configuration that does not itself
contain the empty identifier, with the bypass flag off, the empty
identifier is unprivileged — the call runs the quota check-and-increment
transaction, and in particular is denied once its counter is at the
limit. -/
theorem empty_identifier_unprivileged (env : Env) (s : Store)
    (hb : env.bypassRateLimiting = false)
    (hw : env.whitelistedIps.contains "" = false)
    (hf : env.txnFails = false) :
    checkAndRecordUsage env "" s = quotaTransaction env "" s ∧
    (IP_LIMIT ≤ ipCountIn s "" env.today → (checkAndRecordUsage env "" s).1 = false) := by
  refine ⟨check_quota_path env "" s hb hw hf, ?_⟩
  intro hip
  rw [check_quota_path env "" s hb hw hf, qt_deny_ip env "" s hip]

/-- C7 amended witness: with an empty allow-list the empty identifier goes
through the quota transaction. -/
theorem empty_identifier_unprivileged_witness :
    checkAndRecordUsage plainEnv "" emptyStore = quotaTransaction plainEnv "" emptyStore :=
  (empty_identifier_unprivileged plainEnv emptyStore rfl rfl rfl).1

/-- C8 counterexample: with no peer address and no forwarded header the
JavaScript pipeline hands `undefined` to the controller, whose template
literal keys the counter as `"undefined_<day>"`, while the TypeScript
pipeline coerces to `""` and keys it as `"_<day>"` — the two store effects
differ on the same inputs. -/
theorem js_ts_pipelines_differ :
    jsAdmitRequest plainEnv none none emptyStore
      ≠ tsAdmitRequest plainEnv none none emptyStore := by
  intro h
  have hl : (jsAdmitRequest plainEnv none none emptyStore).2.ipUsage "undefined_2025-06-01"
      = some 1 := by decide
  have hr : (tsAdmitRequest plainEnv none none emptyStore).2.ipUsage "undefined_2025-06-01"
      = none := by decide
  rw [h, hr] at hl
  exact Option.noConfusion hl

/-- C8 amended: whenever identity resolution produces an actual string
(in particular whenever a peer address or a usable forwarded header is
present), the JavaScript and TypeScript pipelines return the same decision
and the same store. -/
theorem js_ts_pipelines_agree_on_defined (env : Env) (reqIp forwardedFor : Option String)
    (s : Store) (a : String) (h : jsResolveIp reqIp forwardedFor = some a) :
    jsAdmitRequest env reqIp forwardedFor s = tsAdmitRequest env reqIp forwardedFor s := by
  unfold jsAdmitRequest tsAdmitRequest tsResolveIp
  rw [h]
  rfl

/-- C8 amended witness: with a present peer address the two pipelines
agree. -/
theorem js_ts_pipelines_agree_on_defined_witness :
    jsAdmitRequest plainEnv (some "1.2.3.4") none emptyStore
      = tsAdmitRequest plainEnv (some "1.2.3.4") none emptyStore :=
  js_ts_pipelines_agree_on_defined plainEnv (some "1.2.3.4") none emptyStore "1.2.3.4" rfl

/-- C9 counterexample: when neither a peer address nor a forwarded header
is available, the JavaScript resolver yields no identifier (`undefined`),
not the empty identifier. -/
theorem js_resolver_yields_undefined :
    jsResolveIp none none ≠ some "" ∧ jsResolveIp none none = none :=
  ⟨by decide, rfl⟩

/-- C9 amended: both resolvers are total; a present non-empty forwarded
header yields its first comma-separated entry trimmed, otherwise a present
peer address is used as is; when neither is available the TypeScript
resolver yields the empty identifier while the JavaScript resolver yields
no identifier at all. -/
theorem identity_resolution (reqIp forwardedFor : Option String) :
    (∀ f, forwardedFor = some f → f ≠ "" →
      tsResolveIp reqIp forwardedFor = firstForwardedEntry f ∧
      jsResolveIp reqIp forwardedFor = some (firstForwardedEntry f)) ∧
    (∀ a, reqIp = some a → (forwardedFor = none ∨ forwardedFor = some "") →
      tsResolveIp reqIp forwardedFor = a ∧
      jsResolveIp reqIp forwardedFor = some a) ∧
    (reqIp = none → (forwardedFor = none ∨ forwardedFor = some "") →
      tsResolveIp reqIp forwardedFor = "" ∧
      jsResolveIp reqIp forwardedFor = none) := by
  refine ⟨?_, ?_, ?_⟩
  · intro f hf hne
    subst hf
    simp [tsResolveIp, jsResolveIp, hne]
  · intro a ha hor
    subst ha
    rcases hor with h | h <;> subst h <;> simp [tsResolveIp, jsResolveIp]
  · intro ha hor
    subst ha
    rcases hor with h | h <;> subst h <;> simp [tsResolveIp, jsResolveIp]

/-- C9 amended witness: a forwarded header with two entries resolves to
its first entry, trimmed, in both implementations. -/
theorem identity_resolution_witness :
    tsResolveIp (some "9.9.9.9") (some " 1.2.3.4 , 5.6.7.8")
      = firstForwardedEntry " 1.2.3.4 , 5.6.7.8" ∧
    jsResolveIp (some "9.9.9.9") (some " 1.2.3.4 , 5.6.7.8")
      = some (firstForwardedEntry " 1.2.3.4 , 5.6.7.8") :=
  (identity_resolution (some "9.9.9.9") (some " 1.2.3.4 , 5.6.7.8")).1
    " 1.2.3.4 , 5.6.7.8" rfl (by decide)

/-- C10: provider dispatch tests substring containment in the fixed order
`/tts`, `/openai`, `/gemini`: a path containing `/tts` dispatches to
speech synthesis whatever else it contains, later routes fire only when
the earlier substrings are absent, and a path containing none of the
three receives status 404 with body error "Endpoint not found.". -/
theorem provider_dispatch_order (path : String) :
    (jsStringIncludes path "/tts" = true → routeRequest path = RouterAction.callTTS) ∧
    (jsStringIncludes path "/tts" = false → jsStringIncludes path "/openai" = true →
      routeRequest path = RouterAction.callOpenAI) ∧
    (jsStringIncludes path "/tts" = false → jsStringIncludes path "/openai" = false →
      jsStringIncludes path "/gemini" = true → routeRequest path = RouterAction.callGemini) ∧
    (jsStringIncludes path "/tts" = false → jsStringIncludes path "/openai" = false →
      jsStringIncludes path "/gemini" = false →
      routeRequest path = RouterAction.respond 404 "Endpoint not found.") := by
  refine ⟨?_, ?_, ?_, ?_⟩
  · intro h1
    unfold routeRequest
    rw [h1]
    simp
  · intro h1 h2
    unfold routeRequest
    rw [h1, h2]
    simp
  · intro h1 h2 h3
    unfold routeRequest
    rw [h1, h2, h3]
    simp
  · intro h1 h2 h3
    unfold routeRequest
    rw [h1, h2, h3]
    simp

/-- C10 witness: a path containing both `/tts` and `/gemini` dispatches to
speech synthesis, and a path containing no route token gets the 404
action. -/
theorem provider_dispatch_order_witness :
    routeRequest "/v1/tts/gemini" = RouterAction.callTTS ∧
    routeRequest "/v1/status" = RouterAction.respond 404 "Endpoint not found." :=
  ⟨(provider_dispatch_order "/v1/tts/gemini").1 (by decide),
   (provider_dispatch_order "/v1/status").2.2.2 (by decide) (by decide) (by decide)⟩
